import Mathlib

/-!
Shallow embedding of the plugin discovery/loading engine of `server.py`
(class `PluginManager`).  Python dictionaries become association lists with
insert-or-overwrite semantics, the filesystem state of the plugin root becomes
an explicit list of directory entries, exceptions become `PyResult`, and the
mutable process state (`self.plugins`, `self.app` routes, `sys.path`, stdout)
becomes an explicit record threaded through the loading functions.
-/

namespace FastServer

/-- The outcome of a Python operation that may raise: a value, or a raised
exception carrying its message. -/
inductive PyResult (α : Type) where
  | ok (val : α)
  | error (msg : String)
deriving DecidableEq, Repr

/-- A Python `dict` of strings, as an association list in insertion order. -/
abbrev Manifest := List (String × String)

/-- `d[k]` lookup returning an `Option`: the binding for `k`, if any. -/
def mlookup : Manifest → String → Option String
  | [], _ => none
  | kv :: rest, k => if kv.1 == k then some kv.2 else mlookup rest k

/-- Python `d[k] = v` on a dict: overwrite in place when the key is present
(keeping its original position, as CPython dicts do), append otherwise. -/
def mset : Manifest → String → String → Manifest
  | [], k, v => [(k, v)]
  | kv :: rest, k, v =>
      if kv.1 == k then (k, v) :: rest else kv :: mset rest k v

/-- `some a` when `a` is `some`, otherwise `b`: the value the whole fold
yields when `a` is what the suffix contributes and `b` what the prefix
contributed. -/
def ofirst (a b : Option String) : Option String :=
  match a with
  | some v => some v
  | none => b

/-- Python whitespace as tested by str.strip with no argument. -/
def py_isspace (c : Char) : Bool :=
  c == ' ' || c == '\t' || c == '\n' || c == '\r' ||
    c == Char.ofNat 11 || c == Char.ofNat 12

/-- Remove leading and trailing whitespace from a character list. -/
def strip_chars (cs : List Char) : List Char :=
  ((cs.dropWhile py_isspace).reverse.dropWhile py_isspace).reverse

/-- Python str.strip with no argument. -/
def py_strip (s : String) : String :=
  String.mk (strip_chars s.data)

/-- Split a character list at the first occurrence of the equals sign:
`none` when the list has none (Python: the in operator on the line), and the
parts before and after the first one otherwise (Python: str.split with
separator equals and maxsplit one). -/
def break_at_eq : List Char → Option (List Char × List Char)
  | [] => none
  | c :: cs =>
      if c = '=' then some ([], cs)
      else (break_at_eq cs).map (fun p => (c :: p.1, p.2))

/-- Python str.startswith for the comment marker: the first character is a
hash. -/
def py_startswith_hash (s : String) : Bool :=
  match s.data with
  | c :: _ => c == '#'
  | [] => false

/-- Python str.lower, character-wise (the names involved are ASCII). -/
def py_lower (s : String) : String :=
  String.mk (s.data.map Char.toLower)

/-- Python str.replace of every hyphen by an underscore (character-wise,
as the pattern is a single character). -/
def py_hyphen_to_underscore (s : String) : String :=
  String.mk (s.data.map (fun c => if c = '-' then '_' else c))

/-- One iteration of the manifest-reading loop of `_load_plugin`
(`server.py` lines 66-70): strip the line; when it contains an equals sign
and does not start with a hash, split on the first equals sign, strip key
and value, assign. -/
def parse_line (m : Manifest) (raw : String) : Manifest :=
  let line := py_strip raw
  match break_at_eq line.data with
  | none => m
  | some kv =>
      if py_startswith_hash line then m
      else mset m (py_strip (String.mk kv.1)) (py_strip (String.mk kv.2))

/-- The whole manifest-reading loop: fold `parse_line` over the file's lines
starting from the empty dict (`plugin_info = ...`, `server.py` line 62). -/
def parse_manifest (lines : List String) : Manifest :=
  lines.foldl parse_line []

/-- The key/value pair a single line contributes, if it is well formed
(same conditions as `parse_line`, but reported instead of folded in). -/
def line_kv (raw : String) : Option (String × String) :=
  let line := py_strip raw
  match break_at_eq line.data with
  | none => none
  | some kv =>
      if py_startswith_hash line then none
      else some (py_strip (String.mk kv.1), py_strip (String.mk kv.2))

/-- A module attribute: whether it is callable, and — when called with the
app as sole argument — whether the call raises or returns after having added
the given routes to the dispatch surface. -/
structure Attr where
  callable : Bool
  result : PyResult (List String)
deriving DecidableEq, Repr

/-- A loaded Python module: its named attributes. -/
abbrev Module := List (String × Attr)

/-- `hasattr`/`getattr` on a loaded module: the attribute with the given
name, if any. -/
def module_lookup : Module → String → Option Attr
  | [], _ => none
  | kv :: rest, n => if kv.1 == n then some kv.2 else module_lookup rest n

/-- `register_function(self.app)`: calling a non-callable attribute raises a
`TypeError`; a callable one behaves as its `result` says. -/
def call_attr (a : Attr) : PyResult (List String) :=
  if a.callable then a.result else PyResult.error "TypeError: object is not callable"

/-- The registration symbol derived in `_load_plugin` line 94:
`f"register_{plugin_name.lower().replace('-', '_')}_routes"`. -/
def register_name (plugin_name : String) : String :=
  "register_" ++ py_hyphen_to_underscore (py_lower plugin_name) ++ "_routes"

/-- One entry of the plugin-root directory, with the outcomes of the
filesystem and interpreter interactions `_load_plugin` can perform on it:
whether it is a directory, whether `plugin.cfg` exists, what reading
`plugin.cfg` yields (lines, or a raised error), which file names exist inside
the directory, and what executing the resolved entry module yields. -/
structure PluginDir where
  name : String
  isDir : Bool
  path : String
  hasConfig : Bool
  configRead : PyResult (List String)
  files : List String
  exec : PyResult Module
deriving DecidableEq, Repr

/-- The registry record stored by `_load_plugin` lines 114-118:
`{'info': plugin_info, 'module': module, 'path': plugin_path}`. -/
structure PluginRecord where
  info : Manifest
  module : Module
  path : String
deriving DecidableEq, Repr

/-- The mutable process state threaded through loading: the trace of plugins
`_load_plugin` was called on, the registry `self.plugins`, the dispatch
surface's routes, `sys.path`, and the printed log lines. -/
structure MState where
  attempts : List String
  plugins : List (String × PluginRecord)
  routes : List String
  syspath : List String
  log : List String
deriving DecidableEq, Repr

/-- `self.plugins[name]` lookup. -/
def reg_lookup : List (String × PluginRecord) → String → Option PluginRecord
  | [], _ => none
  | kv :: rest, n => if kv.1 == n then some kv.2 else reg_lookup rest n

/-- `self.plugins[name] = rec` on the registry dict: overwrite in place when
the key is present, append otherwise. -/
def reg_insert : List (String × PluginRecord) → String → PluginRecord →
    List (String × PluginRecord)
  | [], n, r => [(n, r)]
  | kv :: rest, n, r =>
      if kv.1 == n then (n, r) :: rest else kv :: reg_insert rest n r

/-- Entry-file resolution of `_load_plugin` lines 72-73:
`plugin_info.get('plugin_main_file', f"\x7bplugin_name.lower()\x7d.py")`. -/
def resolve_main (info : Manifest) (plugin_name : String) : String :=
  (mlookup info "plugin_main_file").getD (py_lower plugin_name ++ ".py")

/-- `if plugin_path_str not in sys.path: sys.path.insert(0, plugin_path_str)`
(`server.py` lines 87-89). -/
def sys_insert (sp : List String) (x : String) : List String :=
  if sp.contains x then sp else x :: sp

/-- The generic registration branch of `_load_plugin` (lines 105-108):
invoke the registration function with the app, then log success. -/
def register_branch_generic (a : Attr) (st : MState) (plugin_name : String) :
    PyResult MState :=
  match call_attr a with
  | PyResult.error e => PyResult.error e
  | PyResult.ok rs =>
      PyResult.ok { st with
        routes := st.routes ++ rs,
        log := st.log ++
          ["Плагин " ++ plugin_name ++ " успешно загружен и зарегистрирован"] }

/-- The `plugin_name == "GitHub"` registration branch of `_load_plugin`
(lines 100-104): invoke the registration function with the app, then log
success. -/
def register_branch_github (a : Attr) (st : MState) (plugin_name : String) :
    PyResult MState :=
  match call_attr a with
  | PyResult.error e => PyResult.error e
  | PyResult.ok rs =>
      PyResult.ok { st with
        routes := st.routes ++ rs,
        log := st.log ++
          ["Плагин " ++ plugin_name ++ " успешно загружен и зарегистрирован"] }

/-- `PluginManager._load_plugin` (`server.py` lines 51-121).  Every raise
point inside the `try` block is caught by the `except` at line 120, which
logs and returns; side effects performed before a raise (the `sys.path`
insertion) persist. -/
def load_plugin (st : MState) (p : PluginDir) : MState :=
  let st := { st with attempts := st.attempts ++ [p.name] }
  if !p.hasConfig then
    { st with log := st.log ++
        ["Плагин " ++ p.name ++ ": файл plugin.cfg не найден"] }
  else
    match p.configRead with
    | PyResult.error e =>
        { st with log := st.log ++
            ["Ошибка при загрузке плагина " ++ p.name ++ ": " ++ e] }
    | PyResult.ok lines =>
        let info := parse_manifest lines
        let main_file := resolve_main info p.name
        if !(p.files.contains main_file) then
          { st with log := st.log ++
              ["Плагин " ++ p.name ++ ": основной файл " ++ main_file ++
                " не найден"] }
        else
          let st := { st with syspath := sys_insert st.syspath p.path }
          match p.exec with
          | PyResult.error e =>
              { st with log := st.log ++
                  ["Ошибка при загрузке плагина " ++ p.name ++ ": " ++ e] }
          | PyResult.ok module =>
              let rname := register_name p.name
              match module_lookup module rname with
              | some a =>
                  match (if p.name == "GitHub" then
                          register_branch_github a st p.name
                         else register_branch_generic a st p.name) with
                  | PyResult.error e =>
                      { st with log := st.log ++
                          ["Ошибка при загрузке плагина " ++ p.name ++ ": "
                            ++ e] }
                  | PyResult.ok st2 =>
                      { st2 with plugins :=
                          (reg_insert st2.plugins p.name
                            ⟨info, module, p.path⟩) }
              | none =>
                  let st := { st with log := st.log ++
                      ["Плагин " ++ p.name ++ ": функция " ++ rname ++
                        " не найдена"] }
                  { st with plugins :=
                      (reg_insert st.plugins p.name ⟨info, module, p.path⟩) }

/-- `_load_plugin` with the `plugin_name == "GitHub"` special case removed:
the generic registration branch is always taken.  Used to state that the
special case is behaviorally irrelevant. -/
def load_plugin_nospecial (st : MState) (p : PluginDir) : MState :=
  let st := { st with attempts := st.attempts ++ [p.name] }
  if !p.hasConfig then
    { st with log := st.log ++
        ["Плагин " ++ p.name ++ ": файл plugin.cfg не найден"] }
  else
    match p.configRead with
    | PyResult.error e =>
        { st with log := st.log ++
            ["Ошибка при загрузке плагина " ++ p.name ++ ": " ++ e] }
    | PyResult.ok lines =>
        let info := parse_manifest lines
        let main_file := resolve_main info p.name
        if !(p.files.contains main_file) then
          { st with log := st.log ++
              ["Плагин " ++ p.name ++ ": основной файл " ++ main_file ++
                " не найден"] }
        else
          let st := { st with syspath := sys_insert st.syspath p.path }
          match p.exec with
          | PyResult.error e =>
              { st with log := st.log ++
                  ["Ошибка при загрузке плагина " ++ p.name ++ ": " ++ e] }
          | PyResult.ok module =>
              let rname := register_name p.name
              match module_lookup module rname with
              | some a =>
                  match register_branch_generic a st p.name with
                  | PyResult.error e =>
                      { st with log := st.log ++
                          ["Ошибка при загрузке плагина " ++ p.name ++ ": "
                            ++ e] }
                  | PyResult.ok st2 =>
                      { st2 with plugins :=
                          (reg_insert st2.plugins p.name
                            ⟨info, module, p.path⟩) }
              | none =>
                  let st := { st with log := st.log ++
                      ["Плагин " ++ p.name ++ ": функция " ++ rname ++
                        " не найдена"] }
                  { st with plugins :=
                      (reg_insert st.plugins p.name ⟨info, module, p.path⟩) }

/-- The registry record a single load attempt would produce: `some` exactly
when the full sequence (manifest present and readable, entry file found,
module executed, registration absent or returning) completes without error. -/
def try_record (p : PluginDir) : Option PluginRecord :=
  if !p.hasConfig then none
  else
    match p.configRead with
    | PyResult.error _ => none
    | PyResult.ok lines =>
        let info := parse_manifest lines
        let main_file := resolve_main info p.name
        if !(p.files.contains main_file) then none
        else
          match p.exec with
          | PyResult.error _ => none
          | PyResult.ok module =>
              match module_lookup module (register_name p.name) with
              | some a =>
                  match call_attr a with
                  | PyResult.error _ => none
                  | PyResult.ok _ => some ⟨parse_manifest lines, module, p.path⟩
              | none => some ⟨parse_manifest lines, module, p.path⟩

/-- The routes a single load attempt adds to the dispatch surface: the
routes returned by a completed registration call, nothing otherwise. -/
def try_routes (p : PluginDir) : List String :=
  if !p.hasConfig then []
  else
    match p.configRead with
    | PyResult.error _ => []
    | PyResult.ok lines =>
        let info := parse_manifest lines
        let main_file := resolve_main info p.name
        if !(p.files.contains main_file) then []
        else
          match p.exec with
          | PyResult.error _ => []
          | PyResult.ok module =>
              match module_lookup module (register_name p.name) with
              | some a =>
                  match call_attr a with
                  | PyResult.error _ => []
                  | PyResult.ok rs => rs
              | none => []

/-- Sequential loading of a list of plugins, one `_load_plugin` call each. -/
def load_list (st : MState) (ps : List PluginDir) : MState :=
  ps.foldl load_plugin st

/-- The fixed priority list of `load_plugins` (`server.py` line 30). -/
def plugin_order : List String := ["ILL", "TTS", "AntiPublic-Web"]

/-- The state of the plugin-root directory: whether it exists and its entries
in enumeration (`iterdir`) order. -/
structure RootFS where
  rootExists : Bool
  entries : List PluginDir
deriving DecidableEq, Repr

/-- `(self.plugin_dir / n).exists() and (self.plugin_dir / n).is_dir()`:
the directory entry for `n`, when it exists and is a directory. -/
def find_dir (entries : List PluginDir) (n : String) : Option PluginDir :=
  entries.find? (fun p => p.name == n && p.isDir)

/-- Whether the plugin root has a subdirectory named `n`. -/
def dir_exists (entries : List PluginDir) (n : String) : Bool :=
  (find_dir entries n).isSome

/-- The first two phases of `load_plugins` (lines 33-44): fold over the
priority list and then the `GitHub` check, accumulating both the plugins to
attempt and the `loaded_plugins` name set, exactly as the loop does. -/
def phase12 (entries : List PluginDir) : List PluginDir × List String :=
  let step := fun (acc : List PluginDir × List String) (n : String) =>
    match find_dir entries n with
    | some p => (acc.1 ++ [p], acc.2 ++ [n])
    | none => acc
  let acc1 := plugin_order.foldl step ([], [])
  match find_dir entries "GitHub" with
  | some p => (acc1.1 ++ [p], acc1.2 ++ ["GitHub"])
  | none => acc1

/-- The full attempt sequence of `load_plugins`: phases 1-2, then every
remaining directory entry not in `loaded_plugins`, in enumeration order
(lines 46-49). -/
def select_order (entries : List PluginDir) : List PluginDir :=
  let acc := phase12 entries
  acc.1 ++ entries.filter (fun p => p.isDir && !(acc.2.contains p.name))

/-- `PluginManager.load_plugins` (`server.py` lines 21-49): return logging a
notice when the plugin root does not exist, otherwise load the selected
plugins in order. -/
def load_plugins (fs : RootFS) (st : MState) : MState :=
  if !fs.rootExists then
    { st with log := st.log ++ ["Директория плагинов не найдена"] }
  else load_list st (select_order fs.entries)

/-- `PluginManager.get_plugin_info` (`server.py` lines 123-125):
`self.plugins.get(plugin_name, {}).get('info', {})`. -/
def get_plugin_info (st : MState) (plugin_name : String) : Manifest :=
  ((reg_lookup st.plugins plugin_name).map (fun r => r.info)).getD []

/-- `PluginManager.list_plugins` (`server.py` lines 127-129). -/
def list_plugins (st : MState) : List String :=
  st.plugins.map (fun kv => kv.1)

/-- The attempt order stated by the spec: each priority name in listed order
iff its directory exists, then the catch-all `GitHub` iff its directory
exists, then the remaining subdirectories in enumeration order. -/
def spec_order (entries : List PluginDir) : List String :=
  let p1 := plugin_order.filter (fun n => dir_exists entries n)
  let p2 := if dir_exists entries "GitHub" then ["GitHub"] else []
  let attempted := p1 ++ p2
  p1 ++ p2 ++
    (entries.filter (fun p => p.isDir && !(attempted.contains p.name))).map
      (fun p => p.name)

/-- The registry entries contributed by the successfully loaded plugins of a
list, in attempt order. -/
def successes (ps : List PluginDir) : List (String × PluginRecord) :=
  ps.filterMap (fun p => (try_record p).map (fun r => (p.name, r)))

/-! ### Concrete fixtures used to instantiate the theorems -/

/-- The process state at startup: nothing attempted, empty registry, no
routes, empty module search path, empty log. -/
def init_state : MState := ⟨[], [], [], [], []⟩

/-- A bare plugin directory entry with the given name: a directory whose
`plugin.cfg` is absent. -/
def probe_dir (n : String) : PluginDir :=
  ⟨n, true, "plugin/" ++ n, false, PyResult.ok [], [], PyResult.ok []⟩

/-- A plugin-root population exercising the ordering policy: the disk order
is TTS, GitHub, Other, ILL, and the priority name AntiPublic-Web is absent. -/
def c1_entries : List PluginDir :=
  [probe_dir "TTS", probe_dir "GitHub", probe_dir "Other", probe_dir "ILL"]

/-- A plugin whose whole load sequence succeeds and registers one route. -/
def ok_plugin : PluginDir :=
  ⟨"Fine", true, "plugin/Fine", true,
    PyResult.ok ["plugin_version = 1.0"], ["fine.py"],
    PyResult.ok [("register_fine_routes", ⟨true, PyResult.ok ["/fine"]⟩)]⟩

/-- A plugin whose module loads but whose registration function raises. -/
def raising_plugin : PluginDir :=
  ⟨"Boom", true, "plugin/Boom", true,
    PyResult.ok ["plugin_main_file = boom.py"], ["boom.py"],
    PyResult.ok [("register_boom_routes", ⟨true, PyResult.error "ValueError"⟩)]⟩

/-- A plugin whose module loads but exposes no registration symbol. -/
def quiet_plugin : PluginDir :=
  ⟨"My-Plug", true, "plugin/My-Plug", true,
    PyResult.ok ["plugin_description = x"], ["my-plug.py"],
    PyResult.ok [("other", ⟨true, PyResult.ok []⟩)]⟩

/-- A plugin whose resolved entry file does not exist. -/
def mainless_plugin : PluginDir :=
  ⟨"Ghost", true, "plugin/Ghost", true,
    PyResult.ok ["plugin_main_file = gone.py"], [], PyResult.ok []⟩

/-- A plugin whose module has a non-callable attribute under the derived
registration name. -/
def noncall_plugin : PluginDir :=
  ⟨"Odd", true, "plugin/Odd", true, PyResult.ok [], ["odd.py"],
    PyResult.ok [("register_odd_routes", ⟨false, PyResult.ok ["/odd"]⟩)]⟩

/-- A process state holding one registered plugin, for lookup fixtures. -/
def reg_state : MState :=
  ⟨["ILL"], [("ILL", ⟨[("plugin_version", "1.0")], [], "plugin/ILL"⟩)],
    [], [], []⟩

/-! ### Dictionary lemmas -/

lemma mlookup_mset (m : Manifest) (k v k' : String) :
    mlookup (mset m k v) k' = if k = k' then some v else mlookup m k' := by
  induction m with
  | nil =>
      by_cases h : k = k' <;> simp [mset, mlookup, h]
  | cons hd tl ih =>
      by_cases h : hd.1 = k
      · by_cases h' : k = k' <;> simp [mset, mlookup, h, h']
      · by_cases h' : k = k'
        · subst h'
          simp [mset, mlookup, h, ih]
        · simp [mset, mlookup, h, ih, h']

lemma reg_lookup_insert (ps : List (String × PluginRecord)) (n : String)
    (r : PluginRecord) (k : String) :
    reg_lookup (reg_insert ps n r) k =
      if n = k then some r else reg_lookup ps k := by
  induction ps with
  | nil =>
      by_cases h : n = k <;> simp [reg_insert, reg_lookup, h]
  | cons hd tl ih =>
      by_cases h : hd.1 = n
      · by_cases h' : n = k <;> simp [reg_insert, reg_lookup, h, h']
      · by_cases h' : n = k
        · subst h'
          simp [reg_insert, reg_lookup, h, ih]
        · simp [reg_insert, reg_lookup, h, ih, h']

lemma reg_lookup_none_insert (ps : List (String × PluginRecord)) (n : String)
    (r : PluginRecord) (h : reg_lookup ps n = none) :
    reg_insert ps n r = ps ++ [(n, r)] := by
  induction ps with
  | nil => simp [reg_insert]
  | cons hd tl ih =>
      by_cases hh : hd.1 = n
      · simp [reg_lookup, hh] at h
      · simp [reg_lookup, hh] at h
        simp [reg_insert, hh, ih h]

lemma reg_lookup_append (xs ys : List (String × PluginRecord)) (k : String) :
    reg_lookup (xs ++ ys) k =
      match reg_lookup xs k with
      | some r => some r
      | none => reg_lookup ys k := by
  induction xs with
  | nil => simp [reg_lookup]
  | cons hd tl ih =>
      by_cases h : hd.1 = k <;> simp [reg_lookup, h, ih]

/-! ### Manifest-parser lemmas -/

lemma parse_line_eq (m : Manifest) (raw : String) :
    parse_line m raw =
      match line_kv raw with
      | some kv => mset m kv.1 kv.2
      | none => m := by
  unfold parse_line line_kv
  rcases hs : break_at_eq (py_strip raw).data with _ | ⟨k, v⟩ <;>
    by_cases h : py_startswith_hash (py_strip raw) <;> simp [hs, h]

lemma mlookup_foldl_parse (lines : List String) (m : Manifest) (k : String) :
    mlookup (lines.foldl parse_line m) k =
      ofirst (((lines.filterMap line_kv).reverse.find?
        (fun kv => kv.1 == k)).map (fun kv => kv.2)) (mlookup m k) := by
  induction lines generalizing m with
  | nil => simp [ofirst]
  | cons l ls ih =>
      rw [List.foldl_cons, ih, parse_line_eq]
      cases hl : line_kv l with
      | none => simp [hl]
      | some kv =>
          cases hfind : (List.filterMap line_kv ls).reverse.find?
              (fun kv => kv.1 == k) with
          | some kv' =>
              simp [hl, List.filterMap_cons, List.find?_append, hfind,
                Option.or, ofirst, mlookup_mset]
          | none =>
              by_cases hk : kv.1 = k <;>
                simp [hl, List.filterMap_cons, List.find?_append, hfind,
                  Option.or, ofirst, mlookup_mset, List.find?_cons, hk]

/-! ### Anatomy of a single load attempt -/

lemma branch_github_eq_generic :
    register_branch_github = register_branch_generic := rfl

lemma load_plugin_fields (st : MState) (p : PluginDir) :
    (load_plugin st p).attempts = st.attempts ++ [p.name] ∧
    (load_plugin st p).plugins =
      (match try_record p with
       | some r => reg_insert st.plugins p.name r
       | none => st.plugins) ∧
    (load_plugin st p).routes = st.routes ++ try_routes p ∧
    ((load_plugin st p).syspath = st.syspath ∨
      (load_plugin st p).syspath = sys_insert st.syspath p.path) := by
  unfold load_plugin try_record try_routes
  rw [branch_github_eq_generic]
  cases hc : p.hasConfig <;> simp only [hc, Bool.not_true, Bool.not_false]
  · simp
  · cases hr : p.configRead <;> simp only [hr]
    case error e => simp
    case ok lines =>
      cases hf : p.files.contains (resolve_main (parse_manifest lines) p.name)
        <;> simp only [hf, Bool.not_true, Bool.not_false]
      · simp
      · cases he : p.exec <;> simp only [he]
        case error e => simp
        case ok module =>
          cases hm : module_lookup module (register_name p.name)
            <;> simp only [hm]
          case none => simp
          case some a =>
            rw [ite_self]
            unfold register_branch_generic
            cases ha : call_attr a <;> simp [ha]

lemma load_plugin_attempts (st : MState) (p : PluginDir) :
    (load_plugin st p).attempts = st.attempts ++ [p.name] :=
  (load_plugin_fields st p).1

lemma load_plugin_plugins (st : MState) (p : PluginDir) :
    (load_plugin st p).plugins =
      match try_record p with
      | some r => reg_insert st.plugins p.name r
      | none => st.plugins :=
  (load_plugin_fields st p).2.1

lemma load_plugin_routes (st : MState) (p : PluginDir) :
    (load_plugin st p).routes = st.routes ++ try_routes p :=
  (load_plugin_fields st p).2.2.1

lemma load_plugin_syspath (st : MState) (p : PluginDir) :
    (load_plugin st p).syspath = st.syspath ∨
      (load_plugin st p).syspath = sys_insert st.syspath p.path :=
  (load_plugin_fields st p).2.2.2

/-! ### Sequential loading -/

lemma load_list_cons (st : MState) (p : PluginDir) (ps : List PluginDir) :
    load_list st (p :: ps) = load_list (load_plugin st p) ps := rfl

lemma load_list_attempts (ps : List PluginDir) (st : MState) :
    (load_list st ps).attempts =
      st.attempts ++ ps.map (fun p => p.name) := by
  induction ps generalizing st with
  | nil => simp [load_list]
  | cons p qs ih =>
      rw [load_list_cons, ih, load_plugin_attempts]
      simp

lemma sys_insert_idem (sp : List String) (x : String) :
    sys_insert (sys_insert sp x) x = sys_insert sp x := by
  unfold sys_insert
  by_cases h : sp.contains x
  · rw [if_pos h, if_pos h]
  · rw [if_neg h]
    have hx : (x :: sp).contains x = true := by simp
    rw [if_pos hx]

lemma sys_insert_nodup (sp : List String) (x : String) (h : sp.Nodup) :
    (sys_insert sp x).Nodup := by
  unfold sys_insert
  by_cases hc : sp.contains x
  · rw [if_pos hc]
    exact h
  · rw [if_neg hc, List.nodup_cons]
    exact ⟨by simpa using hc, h⟩

lemma load_plugin_syspath_nodup (st : MState) (p : PluginDir)
    (h : st.syspath.Nodup) : (load_plugin st p).syspath.Nodup := by
  rcases load_plugin_syspath st p with hs | hs <;> rw [hs]
  · exact h
  · exact sys_insert_nodup _ _ h

lemma load_list_syspath_nodup (ps : List PluginDir) (st : MState)
    (h : st.syspath.Nodup) : (load_list st ps).syspath.Nodup := by
  induction ps generalizing st with
  | nil => exact h
  | cons p qs ih =>
      rw [load_list_cons]
      exact ih _ (load_plugin_syspath_nodup st p h)

lemma load_plugins_syspath_nodup (fs : RootFS) (st : MState)
    (h : st.syspath.Nodup) : (load_plugins fs st).syspath.Nodup := by
  unfold load_plugins
  by_cases hr : fs.rootExists
  · simp only [hr, Bool.not_true]
    exact load_list_syspath_nodup _ _ h
  · simp only [Bool.not_eq_true] at hr
    simpa [hr] using h

/-! ### Ordering of load_plugins -/

lemma find_dir_name (entries : List PluginDir) (n : String) (p : PluginDir)
    (h : find_dir entries n = some p) : p.name = n := by
  have hp := List.find?_some h
  simp only [Bool.and_eq_true, beq_iff_eq] at hp
  exact hp.1

lemma select_order_names (entries : List PluginDir) :
    (select_order entries).map (fun p => p.name) = spec_order entries := by
  unfold select_order spec_order phase12 dir_exists plugin_order
  cases h1 : find_dir entries "ILL" <;>
    cases h2 : find_dir entries "TTS" <;>
      cases h3 : find_dir entries "AntiPublic-Web" <;>
        cases h4 : find_dir entries "GitHub"
  all_goals
    ((try have e1 := find_dir_name _ _ _ h1);
     (try have e2 := find_dir_name _ _ _ h2);
     (try have e3 := find_dir_name _ _ _ h3);
     (try have e4 := find_dir_name _ _ _ h4);
     simp [h1, h2, h3, h4, *])

lemma ofirst_none_right (a : Option String) : ofirst a none = a := by
  cases a <;> rfl

lemma mem_reg_insert_keys (ps : List (String × PluginRecord)) (n : String)
    (r : PluginRecord) : n ∈ (reg_insert ps n r).map (fun kv => kv.1) := by
  induction ps with
  | nil => simp [reg_insert]
  | cons hd tl ih =>
      by_cases h : hd.1 = n <;> simp [reg_insert, h, ih]

lemma load_plugin_eq_nospecial (st : MState) (p : PluginDir) :
    load_plugin st p = load_plugin_nospecial st p := by
  unfold load_plugin load_plugin_nospecial
  rw [branch_github_eq_generic]
  simp only [ite_self]

lemma load_list_plugins (ps : List PluginDir) (st : MState)
    (hfresh : ∀ q ∈ ps, reg_lookup st.plugins q.name = none)
    (hnodup : (ps.map (fun p => p.name)).Nodup) :
    (load_list st ps).plugins = st.plugins ++ successes ps := by
  induction ps generalizing st with
  | nil => simp [load_list, successes]
  | cons p qs ih =>
      rw [load_list_cons]
      have hp := load_plugin_plugins st p
      have hnodup' : (qs.map (fun p => p.name)).Nodup :=
        (List.nodup_cons.mp (by simpa using hnodup)).2
      cases htr : try_record p with
      | none =>
          simp only [htr] at hp
          have hfresh' : ∀ q ∈ qs,
              reg_lookup (load_plugin st p).plugins q.name = none := by
            intro q hq
            rw [hp]
            exact hfresh q (List.mem_cons_of_mem _ hq)
          rw [ih _ hfresh' hnodup', hp]
          simp [successes, htr]
      | some r =>
          simp only [htr] at hp
          have hfr : reg_lookup st.plugins p.name = none :=
            hfresh p (List.mem_cons_self _ _)
          rw [reg_lookup_none_insert _ _ _ hfr] at hp
          have hfresh' : ∀ q ∈ qs,
              reg_lookup (load_plugin st p).plugins q.name = none := by
            intro q hq
            have hne : q.name ≠ p.name := by
              have hmem : q.name ∈ qs.map (fun p => p.name) :=
                List.mem_map_of_mem _ hq
              have hnotin : p.name ∉ qs.map (fun p => p.name) :=
                (List.nodup_cons.mp (by simpa using hnodup)).1
              intro heq
              exact hnotin (heq ▸ hmem)
            rw [hp, reg_lookup_append,
              hfresh q (List.mem_cons_of_mem _ hq)]
            simp [reg_lookup, Ne.symm hne]
          rw [ih _ hfresh' hnodup', hp]
          simp [successes, htr]

/-! ### Claim theorems -/

/-- C1: for every state of the plugin-root directory (when the root exists),
the attempt sequence of `load_plugins` is exactly the spec's order: each name
of the fixed priority list ILL, TTS, AntiPublic-Web in listed order,
attempted iff its directory exists, then the catch-all GitHub iff its
directory exists, then every remaining subdirectory in enumeration order.
In particular, with existing directories TTS, GitHub, Other, ILL (priority
name AntiPublic-Web absent) the attempt order is ILL, TTS, GitHub, Other and
AntiPublic-Web is never attempted. -/
theorem claim_c1_attempt_order :
    (∀ (fs : RootFS) (st : MState), fs.rootExists = true →
      (load_plugins fs st).attempts = st.attempts ++ spec_order fs.entries) ∧
    ((load_plugins ⟨true, c1_entries⟩ init_state).attempts
        = ["ILL", "TTS", "GitHub", "Other"] ∧
      "AntiPublic-Web" ∉ (load_plugins ⟨true, c1_entries⟩ init_state).attempts) := by
  refine ⟨?_, by decide, by decide⟩
  intro fs st h
  unfold load_plugins
  simp only [h, Bool.not_true, Bool.false_eq_true, if_false]
  rw [load_list_attempts, select_order_names]

/-- Witness for C1: the universal part instantiated at the concrete
plugin-root population of the example. -/
theorem claim_c1_attempt_order_witness :
    (load_plugins ⟨true, c1_entries⟩ init_state).attempts
      = init_state.attempts ++ spec_order c1_entries :=
  claim_c1_attempt_order.1 ⟨true, c1_entries⟩ init_state rfl

/-- C2: the registry after a load attempt contains exactly the plugins whose
full load sequence completed without error — per attempt, the registry gains
the record iff `try_record` succeeds; over a whole list of fresh,
distinctly-named plugins, the final registry is the initial one extended by
exactly the successful records; and a raising registration function leaves
the registry without a record for that plugin even though its module had
loaded. -/
theorem claim_c2_registry_exact :
    (∀ (st : MState) (p : PluginDir),
      (load_plugin st p).plugins =
        match try_record p with
        | some r => reg_insert st.plugins p.name r
        | none => st.plugins) ∧
    (∀ (ps : List PluginDir) (st : MState),
      (∀ q ∈ ps, reg_lookup st.plugins q.name = none) →
      (ps.map (fun p => p.name)).Nodup →
      (load_list st ps).plugins = st.plugins ++ successes ps) ∧
    (∀ (st : MState) (p : PluginDir) (m : Module) (a : Attr) (e : String),
      p.exec = PyResult.ok m →
      module_lookup m (register_name p.name) = some a →
      call_attr a = PyResult.error e →
      (load_plugin st p).plugins = st.plugins) := by
  refine ⟨load_plugin_plugins, fun ps st h hn => load_list_plugins ps st h hn, ?_⟩
  intro st p m a e he hm hc
  have htr : try_record p = none := by
    unfold try_record
    repeat' split <;> simp_all
  rw [load_plugin_plugins, htr]

/-- Witness for C2: a raising registration (plugin Boom) yields no record,
and a two-plugin root where Boom fails and Fine succeeds ends with exactly
the record for Fine. -/
theorem claim_c2_registry_exact_witness :
    ((load_list init_state [raising_plugin, ok_plugin]).plugins
        = init_state.plugins ++ successes [raising_plugin, ok_plugin]) ∧
    (load_plugin init_state raising_plugin).plugins = init_state.plugins :=
  ⟨claim_c2_registry_exact.2.1 [raising_plugin, ok_plugin] init_state
      (by decide) (by decide),
    claim_c2_registry_exact.2.2 init_state raising_plugin
      [("register_boom_routes", ⟨true, PyResult.error "ValueError"⟩)]
      ⟨true, PyResult.error "ValueError"⟩ "ValueError" rfl rfl rfl⟩

/-- C3: failures are contained at single-plugin granularity: every plugin of
the list is attempted no matter what happened before it, a failed attempt
leaves the registry unchanged, and loading a list is exactly loading the
head then continuing with the tail (so one plugin's failure never aborts the
rest, and `load_plugins` never propagates an exception — its embedding is a
total function). -/
theorem claim_c3_failure_contained :
    (∀ (ps : List PluginDir) (st : MState),
      (load_list st ps).attempts = st.attempts ++ ps.map (fun p => p.name)) ∧
    (∀ (st : MState) (p : PluginDir), try_record p = none →
      (load_plugin st p).plugins = st.plugins) ∧
    (∀ (st : MState) (p : PluginDir) (ps : List PluginDir),
      load_list st (p :: ps) = load_list (load_plugin st p) ps) := by
  refine ⟨load_list_attempts, ?_, fun st p ps => rfl⟩
  intro st p h
  rw [load_plugin_plugins, h]

/-- Witness for C3: the failing plugin Boom is attempted, leaves no record,
and the following plugin still loads. -/
theorem claim_c3_failure_contained_witness :
    ((load_list init_state [raising_plugin, ok_plugin]).attempts
        = init_state.attempts ++ ["Boom", "Fine"]) ∧
    (load_plugin init_state raising_plugin).plugins = init_state.plugins :=
  ⟨claim_c3_failure_contained.1 [raising_plugin, ok_plugin] init_state,
    claim_c3_failure_contained.2.1 init_state raising_plugin (by decide)⟩

/-- C4: manifest parsing is exactly trim / skip malformed / split on the
first equals sign / trim both / last duplicate wins: the parsed mapping's
lookup returns the value of the last well-formed line bearing the key,
malformed lines contribute nothing (the parse never fails), and a concrete
mixed manifest parses to exactly its well-formed pairs. -/
theorem claim_c4_manifest_parse :
    (∀ (lines : List String) (k : String),
      mlookup (parse_manifest lines) k =
        ((lines.filterMap line_kv).reverse.find?
          (fun kv => kv.1 == k)).map (fun kv => kv.2)) ∧
    (∀ (m : Manifest) (raw : String), line_kv raw = none →
      parse_line m raw = m) ∧
    parse_manifest ["# comment", "", "a = 1", "b=2=3", "a = 4"]
      = [("a", "4"), ("b", "2=3")] := by
  refine ⟨?_, ?_, by decide⟩
  · intro lines k
    simp [parse_manifest, mlookup_foldl_parse, mlookup, ofirst_none_right]
  · intro m raw h
    rw [parse_line_eq, h]

/-- Witness for C4: the malformed-line part instantiated at a comment line. -/
theorem claim_c4_manifest_parse_witness :
    parse_line [("a", "1")] "# note" = [("a", "1")] :=
  claim_c4_manifest_parse.2.1 [("a", "1")] "# note" (by decide)

/-- C5: the registration symbol looked up is exactly
register_<name lower-cased, hyphens to underscores>_routes, and when the
loaded module does not expose it the plugin is still inserted into the
registry (so it appears in `list_plugins`) while the dispatch surface gains
no route from it. -/
theorem claim_c5_entry_point_missing :
    (∀ n : String, register_name n =
      "register_" ++ py_hyphen_to_underscore (py_lower n) ++ "_routes") ∧
    (∀ (st : MState) (p : PluginDir) (lines : List String) (m : Module),
      p.hasConfig = true →
      p.configRead = PyResult.ok lines →
      p.files.contains (resolve_main (parse_manifest lines) p.name) = true →
      p.exec = PyResult.ok m →
      module_lookup m (register_name p.name) = none →
      (load_plugin st p).plugins =
        reg_insert st.plugins p.name ⟨parse_manifest lines, m, p.path⟩ ∧
      p.name ∈ list_plugins (load_plugin st p) ∧
      (load_plugin st p).routes = st.routes) := by
  refine ⟨fun n => rfl, ?_⟩
  intro st p lines m h1 h2 h3 h4 h5
  have h3m : resolve_main (parse_manifest lines) p.name ∈ p.files := by
    simpa using h3
  have htr : try_record p = some ⟨parse_manifest lines, m, p.path⟩ := by
    simp [try_record, h1, h2, h3m, h4, h5]
  have hro : try_routes p = [] := by
    simp [try_routes, h1, h2, h3m, h4, h5]
  refine ⟨?_, ?_, ?_⟩
  · rw [load_plugin_plugins, htr]
  · unfold list_plugins
    rw [load_plugin_plugins, htr]
    exact mem_reg_insert_keys _ _ _
  · rw [load_plugin_routes, hro, List.append_nil]

/-- Witness for C5: the symbol-less plugin My-Plug is recorded, listed, and
adds no route. -/
theorem claim_c5_entry_point_missing_witness :
    (load_plugin init_state quiet_plugin).plugins =
      reg_insert init_state.plugins "My-Plug"
        ⟨parse_manifest ["plugin_description = x"],
          [("other", ⟨true, PyResult.ok []⟩)], "plugin/My-Plug"⟩ ∧
    "My-Plug" ∈ list_plugins (load_plugin init_state quiet_plugin) ∧
    (load_plugin init_state quiet_plugin).routes = init_state.routes :=
  claim_c5_entry_point_missing.2 init_state quiet_plugin
    ["plugin_description = x"] [("other", ⟨true, PyResult.ok []⟩)]
    rfl rfl (by decide) rfl (by decide)

/-- C6: the entry file name is the manifest's plugin_main_file when present,
otherwise the lower-cased directory name with the .py extension appended;
and when the resolved entry file does not exist the plugin is skipped
(registry and routes untouched) without aborting the overall load. -/
theorem claim_c6_entry_resolution :
    (∀ (info : Manifest) (n : String),
      resolve_main info n =
        match mlookup info "plugin_main_file" with
        | some v => v
        | none => py_lower n ++ ".py") ∧
    (∀ (st : MState) (p : PluginDir) (lines : List String),
      p.hasConfig = true →
      p.configRead = PyResult.ok lines →
      p.files.contains (resolve_main (parse_manifest lines) p.name) = false →
      (load_plugin st p).plugins = st.plugins ∧
      (load_plugin st p).routes = st.routes) ∧
    (∀ (st : MState) (p : PluginDir) (ps : List PluginDir),
      load_list st (p :: ps) = load_list (load_plugin st p) ps) := by
  refine ⟨?_, ?_, fun st p ps => rfl⟩
  · intro info n
    unfold resolve_main
    cases mlookup info "plugin_main_file" <;> rfl
  · intro st p lines h1 h2 h3
    have h3m : resolve_main (parse_manifest lines) p.name ∉ p.files := by
      simpa using h3
    have htr : try_record p = none := by
      simp [try_record, h1, h2, h3m]
    have hro : try_routes p = [] := by
      simp [try_routes, h1, h2, h3m]
    refine ⟨?_, ?_⟩
    · rw [load_plugin_plugins, htr]
    · rw [load_plugin_routes, hro, List.append_nil]

/-- Witness for C6: the plugin Ghost declares an entry file that is absent,
so it is skipped with registry and routes untouched. -/
theorem claim_c6_entry_resolution_witness :
    (load_plugin init_state mainless_plugin).plugins = init_state.plugins ∧
    (load_plugin init_state mainless_plugin).routes = init_state.routes :=
  claim_c6_entry_resolution.2.1 init_state mainless_plugin
    ["plugin_main_file = gone.py"] rfl rfl (by decide)

/-- C7: the module-search-path insertion is idempotent per plugin root —
inserting the same path twice is the same as inserting it once — and
re-invoking `load_plugins` on the same directory never produces a duplicate
search-path entry (a duplicate-free search path stays duplicate-free). -/
theorem claim_c7_syspath_idempotent :
    (∀ (sp : List String) (x : String),
      sys_insert (sys_insert sp x) x = sys_insert sp x) ∧
    (∀ (fs : RootFS) (st : MState), st.syspath.Nodup →
      ((load_plugins fs (load_plugins fs st)).syspath).Nodup) := by
  refine ⟨sys_insert_idem, ?_⟩
  intro fs st h
  exact load_plugins_syspath_nodup _ _ (load_plugins_syspath_nodup _ _ h)

/-- Witness for C7: loading a concrete plugin root twice from the startup
state leaves the search path duplicate-free. -/
theorem claim_c7_syspath_idempotent_witness :
    ((load_plugins ⟨true, [ok_plugin]⟩
        (load_plugins ⟨true, [ok_plugin]⟩ init_state)).syspath).Nodup :=
  claim_c7_syspath_idempotent.2 ⟨true, [ok_plugin]⟩ init_state (by decide)

/-- C8: get_plugin_info returns an empty mapping for a name absent from the
registry rather than raising, and the stored manifest mapping for a
registered name. -/
theorem claim_c8_get_plugin_info :
    (∀ (st : MState) (n : String), reg_lookup st.plugins n = none →
      get_plugin_info st n = []) ∧
    (∀ (st : MState) (n : String) (r : PluginRecord),
      reg_lookup st.plugins n = some r → get_plugin_info st n = r.info) := by
  constructor
  · intro st n h
    simp [get_plugin_info, h]
  · intro st n r h
    simp [get_plugin_info, h]

/-- Witness for C8: a never-loaded name gives the empty mapping, a loaded
one gives its manifest. -/
theorem claim_c8_get_plugin_info_witness :
    get_plugin_info reg_state "nope" = [] ∧
    get_plugin_info reg_state "ILL" = [("plugin_version", "1.0")] :=
  ⟨claim_c8_get_plugin_info.1 reg_state "nope" (by decide),
    claim_c8_get_plugin_info.2 reg_state "ILL"
      ⟨[("plugin_version", "1.0")], [], "plugin/ILL"⟩ (by decide)⟩

/-- C9: the GitHub special case is behaviorally inert: the branch taken for
a plugin named GitHub performs exactly the operations of the generic branch,
so `load_plugin` equals its no-special-case variant on every state and
plugin. -/
theorem claim_c9_github_branch_uniform :
    (∀ (a : Attr) (st : MState) (n : String),
      register_branch_github a st n = register_branch_generic a st n) ∧
    (∀ (st : MState) (p : PluginDir),
      load_plugin st p = load_plugin_nospecial st p) :=
  ⟨fun _ _ _ => rfl, load_plugin_eq_nospecial⟩

/-- C10: a non-callable attribute under the derived registration name is not
treated as a missing entry point: the call is attempted, raises, is caught,
and the plugin is absent from the registry — unlike the absent-symbol case,
in which the plugin is still recorded. -/
theorem claim_c10_noncallable_attr :
    (∀ (st : MState) (p : PluginDir) (lines : List String) (m : Module)
        (a : Attr),
      p.hasConfig = true →
      p.configRead = PyResult.ok lines →
      p.files.contains (resolve_main (parse_manifest lines) p.name) = true →
      p.exec = PyResult.ok m →
      module_lookup m (register_name p.name) = some a →
      a.callable = false →
      (∃ e, call_attr a = PyResult.error e) ∧
      (load_plugin st p).plugins = st.plugins ∧
      (load_plugin st p).routes = st.routes) ∧
    (∀ (st : MState) (p : PluginDir) (lines : List String) (m : Module),
      p.hasConfig = true →
      p.configRead = PyResult.ok lines →
      p.files.contains (resolve_main (parse_manifest lines) p.name) = true →
      p.exec = PyResult.ok m →
      module_lookup m (register_name p.name) = none →
      (load_plugin st p).plugins =
        reg_insert st.plugins p.name ⟨parse_manifest lines, m, p.path⟩) := by
  constructor
  · intro st p lines m a h1 h2 h3 h4 h5 h6
    have h3m : resolve_main (parse_manifest lines) p.name ∈ p.files := by
      simpa using h3
    have hca : call_attr a = PyResult.error "TypeError: object is not callable" := by
      simp [call_attr, h6]
    have htr : try_record p = none := by
      simp [try_record, h1, h2, h3m, h4, h5, hca]
    have hro : try_routes p = [] := by
      simp [try_routes, h1, h2, h3m, h4, h5, hca]
    refine ⟨⟨_, hca⟩, ?_, ?_⟩
    · rw [load_plugin_plugins, htr]
    · rw [load_plugin_routes, hro, List.append_nil]
  · intro st p lines m h1 h2 h3 h4 h5
    have h3m : resolve_main (parse_manifest lines) p.name ∈ p.files := by
      simpa using h3
    have htr : try_record p = some ⟨parse_manifest lines, m, p.path⟩ := by
      simp [try_record, h1, h2, h3m, h4, h5]
    rw [load_plugin_plugins, htr]

/-- Witness for C10: the plugin Odd exposes a non-callable registration
attribute and ends up absent from the registry, while the symbol-less
plugin My-Plug is recorded. -/
theorem claim_c10_noncallable_attr_witness :
    ((∃ e, call_attr ⟨false, PyResult.ok ["/odd"]⟩ = PyResult.error e) ∧
      (load_plugin init_state noncall_plugin).plugins = init_state.plugins ∧
      (load_plugin init_state noncall_plugin).routes = init_state.routes) ∧
    (load_plugin init_state quiet_plugin).plugins =
      reg_insert init_state.plugins "My-Plug"
        ⟨parse_manifest ["plugin_description = x"],
          [("other", ⟨true, PyResult.ok []⟩)], "plugin/My-Plug"⟩ :=
  ⟨claim_c10_noncallable_attr.1 init_state noncall_plugin []
      [("register_odd_routes", ⟨false, PyResult.ok ["/odd"]⟩)]
      ⟨false, PyResult.ok ["/odd"]⟩ rfl rfl (by decide) rfl (by decide) rfl,
    claim_c10_noncallable_attr.2 init_state quiet_plugin
      ["plugin_description = x"] [("other", ⟨true, PyResult.ok []⟩)]
      rfl rfl (by decide) rfl (by decide)⟩

end FastServer
